import Mathlib

/-!
Verification development for the `settings_config` / `api.signals` core of the
turbo-advanced backend: the singleton-configuration-with-cache mechanism
(`src/backend/settings_config/models.py`), the configuration gateway and HTTP
client wrappers (`src/backend/settings_config/services.py`), and the media
sync pre-save hook (`src/backend/api/signals.py`).

Modelling conventions:
- The Django ORM table backing a singleton model is a partial map
  `Nat → Option α` from primary keys to records; `super().save()` with a
  primary key set is an upsert at that key, and `objects.get_or_create(pk=1)`
  is a read-or-create at key 1.
- The Django cache, keyed by the model class name, is per-kind a single
  optional cell holding the cached record together with its absolute expiry
  time; `cache.set(key, v, timeout=300)` stores expiry `now + 300`, and an
  entry is visible while `now < expiry` (it has expired once `expiry ≤ now`).
- Time is an explicit natural-number parameter `now`.
- Python string truthiness is modelled as `≠ ""`; Django `BooleanField` as
  `Bool`, `CharField`/`URLField`/`EmailField` as `String`.
- Network calls are modelled by passing the outcome of the single HTTP
  request (or the remote API respond) as an explicit oracle argument, and by
  returning alongside each result the list of external calls issued, so that
  call counts and orderings are provable.  Auto-managed timestamp columns
  (`created_at` / `updated_at`) play no part in the verified properties and
  are omitted from the record types.
-/

namespace TurboAdvanced

/-! ## Singleton model machinery (settings_config/models.py, SingletonModel) -/

/-- Per-kind persistent state: the store rows for this model (keyed by pk) and
the cache cell for the key `f"{cls.__name__}_singleton"` (value, absolute
expiry time). -/
structure SingletonState (α : Type) where
  store : Nat → Option α
  cache : Option (α × Nat)

/-- Write record `r` at key `k` in the store (Django save with pk set /
get_or_create insertion). -/
def upsert {α : Type} (k : Nat) (r : α) (store : Nat → Option α) : Nat → Option α :=
  fun j => if j = k then some r else store j

/-- `SingletonModel.save`: sets `self.pk = 1`, persists via `super().save()`
(an upsert at key 1; the caller-supplied pk is overwritten), then
`self.clear_cache()` deletes the cache entry unconditionally. -/
def saveRecord {α : Type} (suppliedPk : Nat) (r : α) (st : SingletonState α) :
    SingletonState α :=
  { store := upsert 1 r st.store, cache := none }

/-- `cache.get(cache_key)` at time `now`: an entry is returned while
`now < expiry`, and is gone once `expiry ≤ now`. -/
def cacheGet {α : Type} (c : Option (α × Nat)) (now : Nat) : Option α :=
  match c with
  | none => none
  | some (v, expiry) => if now < expiry then some v else none

/-- `SingletonModel.load` at time `now`: return the cached instance if
present; otherwise `cls.objects.get_or_create(pk=1)` (creating `default`, the
field-default record, if key 1 is absent) and `cache.set(..., timeout=300)`.
The third component records whether the store was touched. -/
def loadRecord {α : Type} (default : α) (now : Nat) (st : SingletonState α) :
    α × SingletonState α × Bool :=
  match cacheGet st.cache now with
  | some v => (v, st, false)
  | none =>
    match st.store 1 with
    | some r => (r, { store := st.store, cache := some (r, now + 300) }, true)
    | none =>
      (default,
       { store := upsert 1 default st.store, cache := some (default, now + 300) },
       true)

/-- A sequence of `save` calls, each carrying a caller-supplied primary key
and a record, executed left to right. -/
def runSaves {α : Type} (saves : List (Nat × α)) (st : SingletonState α) :
    SingletonState α :=
  saves.foldl (fun s pr => saveRecord pr.1 pr.2 s) st

/-- The per-kind state with an empty store and an empty cache. -/
def emptyState (α : Type) : SingletonState α :=
  { store := fun _ => none, cache := none }

/-! ## Configuration record types (settings_config/models.py) -/

/-- `StripeConfiguration` (timestamps omitted). -/
structure StripeConfiguration where
  is_active : Bool
  publishable_key : String
  secret_key : String
  webhook_secret : String
  is_live_mode : Bool
deriving Repr, DecidableEq

/-- `ResendConfiguration` (timestamps and last-test audit columns omitted). -/
structure ResendConfiguration where
  is_active : Bool
  api_key : String
  from_email : String
  from_name : String
deriving Repr, DecidableEq

/-- `TinyMCEConfiguration` (timestamps omitted). -/
structure TinyMCEConfiguration where
  is_active : Bool
  api_key : String
  height : Nat
  menubar : String
  plugins : String
  toolbar : String
deriving Repr, DecidableEq

/-- `CloudinaryConfiguration` (timestamps omitted). -/
structure CloudinaryConfiguration where
  is_active : Bool
  cloud_name : String
  api_key : String
  api_secret : String
  default_folder : String
  auto_optimize : Bool
deriving Repr, DecidableEq

/-! ## Gateway accessors (settings_config/services.py)

Each accessor in the source calls `Model.load()` and then gates on
`is_active` and the kind-specific required fields (Python string truthiness =
non-empty).  The `config` argument below is the record returned by that
`load()` call. -/

/-- `get_stripe_config`: the loaded record if `is_active` and `secret_key`
is non-empty, else `None`. -/
def get_stripe_config (config : StripeConfiguration) : Option StripeConfiguration :=
  if config.is_active ∧ config.secret_key ≠ "" then some config else none

/-- `get_resend_config`: the loaded record if `is_active` and `api_key` is
non-empty, else `None`. -/
def get_resend_config (config : ResendConfiguration) : Option ResendConfiguration :=
  if config.is_active ∧ config.api_key ≠ "" then some config else none

/-- `get_tinymce_config`: the loaded record if `is_active` and `api_key` is
non-empty, else `None`. -/
def get_tinymce_config (config : TinyMCEConfiguration) : Option TinyMCEConfiguration :=
  if config.is_active ∧ config.api_key ≠ "" then some config else none

/-- `get_cloudinary_config`: the loaded record if `is_active` and
`cloud_name`, `api_key`, `api_secret` are all non-empty, else `None`. -/
def get_cloudinary_config (config : CloudinaryConfiguration) :
    Option CloudinaryConfiguration :=
  if config.is_active ∧ config.cloud_name ≠ "" ∧ config.api_key ≠ "" ∧
      config.api_secret ≠ "" then
    some config
  else none

/-! ## Email client wrappers (settings_config/services.py)

The outcome of the single `requests.post` call is an explicit argument:
either a response (status code, optional structured `message` field of the
JSON body, raw body text), a `requests.exceptions.Timeout`, or another
`requests.exceptions.RequestException`, each exception carrying its `str(e)`
text.  Each wrapper also returns the list of HTTP requests it issued. -/

/-- Outcome of one HTTP request to the email provider. -/
inductive HttpOutcome where
  | response (status : Nat) (message : Option String) (text : String)
  | timeout (msg : String)
  | requestError (msg : String)
deriving Repr, DecidableEq

/-- One outgoing `requests.post` to the email provider. -/
structure HttpCall where
  url : String
  apiKey : String
  fromHeader : String
  toEmail : String
  subject : String
deriving Repr, DecidableEq

/-- The `from` field: `f"{from_name} <{from_email}>"` when `from_name` is
truthy, else `from_email`. -/
def fromField (config : ResendConfiguration) : String :=
  if config.from_name ≠ "" then
    config.from_name ++ " <" ++ config.from_email ++ ">"
  else config.from_email

/-- `send_test_email(config, to_email)` given the outcome of its one HTTP
call.  Guards: empty `api_key`, then empty `from_email`, each short-circuit
without any HTTP call.  Then: status 200 is success; any other status is a
failure carrying the body's `message` (falling back to the raw text);
`Timeout` and other `RequestException`s are caught and converted to failure
pairs. -/
def send_test_email (config : ResendConfiguration) (to_email : String)
    (outcome : HttpOutcome) : (Bool × String) × List HttpCall :=
  if config.api_key = "" then ((false, "API key is not configured."), [])
  else if config.from_email = "" then ((false, "From email is not configured."), [])
  else
    let call : HttpCall :=
      { url := "https://api.resend.com/emails", apiKey := config.api_key,
        fromHeader := fromField config, toEmail := to_email,
        subject := "Test Email - Turbo Configuration" }
    match outcome with
    | .response status message text =>
      if status = 200 then
        ((true, "Test email sent successfully to " ++ to_email), [call])
      else
        ((false, "Failed to send email: " ++ message.getD text), [call])
    | .timeout _ => ((false, "Request timed out. Please try again."), [call])
    | .requestError e => ((false, "Failed to send email: " ++ e), [call])

/-- `send_email(to_email, subject, html_content)` given the record returned
by `ResendConfiguration.load()` and the outcome of its one HTTP call.  It
gates through `get_resend_config`; unlike `send_test_email` it has no
dedicated `Timeout` handler, so a timeout is caught by the generic
`RequestException` handler with message `str(e)`. -/
def send_email (loaded : ResendConfiguration) (to_email subject : String)
    (outcome : HttpOutcome) : (Bool × String) × List HttpCall :=
  match get_resend_config loaded with
  | none => ((false, "Email service is not configured."), [])
  | some config =>
    let call : HttpCall :=
      { url := "https://api.resend.com/emails", apiKey := config.api_key,
        fromHeader := fromField config, toEmail := to_email, subject := subject }
    match outcome with
    | .response status message text =>
      if status = 200 then ((true, "Email sent successfully."), [call])
      else ((false, "Failed to send email: " ++ message.getD text), [call])
    | .timeout e => ((false, "Failed to send email: " ++ e), [call])
    | .requestError e => ((false, "Failed to send email: " ++ e), [call])

/-! ## Cloudinary client wrappers (settings_config/services.py)

Python string operations on the URL are modelled over `List Char`
(`String.data`): `splitChar` is `str.split(sep)` for a one-character
separator, `containsSeq` is the `in` containment test, and `joinSep` is
`sep.join`. -/

/-- `url.split(sep)` for a single-character separator: Python semantics,
always returning at least one (possibly empty) part. -/
def splitChar (sep : Char) : List Char → List (List Char)
  | [] => [[]]
  | c :: cs =>
    let r := splitChar sep cs
    if c == sep then [] :: r
    else
      match r with
      | [] => [[c]]
      | p :: ps => (c :: p) :: ps

/-- Python `pat in s` substring containment over character lists. -/
def containsSeq (pat : List Char) : List Char → Bool
  | [] => pat.isEmpty
  | c :: tl => pat.isPrefixOf (c :: tl) || containsSeq pat tl

/-- Python `sep.join(parts)` for a single-character separator. -/
def joinSep (sep : Char) : List (List Char) → List Char
  | [] => []
  | [p] => p
  | p :: ps => p ++ sep :: joinSep sep ps

/-- Python `s.rsplit(".", 1)[0]`: everything before the last dot, the whole
list when there is no dot. -/
def stripLastExtension (s : List Char) : List Char :=
  let ps := splitChar '.' s
  if ps.length ≤ 1 then s else joinSep '.' ps.dropLast

/-- The public-id extraction inside `delete_from_cloudinary`.  Mirrors the
source line by line: `parts = url.split("/")`; proceed only when
`"cloudinary.com" in url and len(parts) >= 2`; `parts.index("upload")`
(a `ValueError` when absent, caught by the outer handler, modelled `none`);
`public_id_parts = parts[upload_index + 1:]`; `public_id_parts[0]` (an
`IndexError` when empty, caught, modelled `none`); drop the first part when
it starts with `"v"`; join with `/` and strip the file extension. -/
def extract_public_id (url : String) : Option String :=
  let parts := splitChar '/' url.data
  if containsSeq "cloudinary.com".data url.data ∧ 2 ≤ parts.length then
    match parts.findIdx? (fun p => p == "upload".data) with
    | none => none
    | some uploadIndex =>
      match parts.drop (uploadIndex + 1) with
      | [] => none
      | p :: rest =>
        let publicIdParts := if "v".data.isPrefixOf p then rest else p :: rest
        some (String.mk (stripLastExtension (joinSep '/' publicIdParts)))
  else none

/-- An external call to the media host. -/
inductive CloudEvent where
  | upload (file : String) (folder : String)
  | destroy (publicId : String)
deriving Repr, DecidableEq

/-- `delete_from_cloudinary(url)` given the record returned by
`CloudinaryConfiguration.load()` and the destroy oracle (the `result` field
of `cloudinary.uploader.destroy`, `none` when the field is missing or the
call raised).  Unconfigured, a URL outside the expected pattern, and the
exception paths all yield `False` without raising; a destroy is submitted
only for a successfully extracted public id. -/
def delete_from_cloudinary (loaded : CloudinaryConfiguration)
    (destroyResult : String → Option String) (url : String) :
    Bool × List CloudEvent :=
  match get_cloudinary_config loaded with
  | none => (false, [])
  | some _ =>
    match extract_public_id url with
    | none => (false, [])
    | some publicId =>
      (destroyResult publicId == some "ok", [CloudEvent.destroy publicId])

/-- `upload_to_cloudinary(image_file, folder)` given the record returned by
`CloudinaryConfiguration.load()` and the upload oracle (the `secure_url`
field of the upload response for a given file and folder, `none` when the
field is missing or the call raised: the exception handler converts any
error to `None`).  The folder defaults to the configuration's
`default_folder`; transformation parameters do not affect the returned URL
and are not tracked. -/
def upload_to_cloudinary (loaded : CloudinaryConfiguration)
    (uploadResult : String → String → Option String)
    (image_file : String) (folder : Option String) :
    Option String × List CloudEvent :=
  match get_cloudinary_config loaded with
  | none => (none, [])
  | some config =>
    let f := folder.getD config.default_folder
    (uploadResult image_file f, [CloudEvent.upload image_file f])

/-! ## Media sync pre-save hook (api/signals.py) -/

/-- The `User` fields the hook reads and writes.  `pk` is `none` for a not
yet persisted row; `profile_picture` is the file-field name, `""` when
falsy (absent or cleared, as after `instance.profile_picture = None`). -/
structure User where
  pk : Option Nat
  profile_picture : String
  profile_picture_url : String
deriving Repr, DecidableEq

/-- `upload_profile_picture_to_cloudinary(sender, instance)`: the pre-save
receiver.  `old_instance` is the result of `User.objects.get(pk=instance.pk)`
(`none` for `User.DoesNotExist`).  Returns the (possibly rewritten) instance
and the external calls issued, in order. -/
def upload_profile_picture_to_cloudinary (loaded : CloudinaryConfiguration)
    (uploadResult : String → String → Option String)
    (destroyResult : String → Option String)
    (old_instance : Option User) (inst : User) : User × List CloudEvent :=
  match inst.pk with
  | none =>
    if inst.profile_picture ≠ "" then
      let up := upload_to_cloudinary loaded uploadResult inst.profile_picture
        (some "users/profile_pictures")
      match up.1 with
      | some u => ({ inst with profile_picture_url := u, profile_picture := "" }, up.2)
      | none => (inst, up.2)
    else (inst, [])
  | some _ =>
    match old_instance with
    | none => (inst, [])
    | some old =>
      if inst.profile_picture ≠ "" ∧ inst.profile_picture ≠ old.profile_picture then
        let delEvents :=
          if old.profile_picture_url ≠ "" then
            (delete_from_cloudinary loaded destroyResult old.profile_picture_url).2
          else []
        let up := upload_to_cloudinary loaded uploadResult inst.profile_picture
          (some "users/profile_pictures")
        match up.1 with
        | some u =>
          ({ inst with profile_picture_url := u, profile_picture := "" },
           delEvents ++ up.2)
        | none => (inst, delEvents ++ up.2)
      else (inst, [])

/-! ## Sample configurations for concrete evaluations -/

/-- A fully configured, active Cloudinary record. -/
def sampleCloudinary : CloudinaryConfiguration :=
  { is_active := true, cloud_name := "demo", api_key := "key",
    api_secret := "secret", default_folder := "uploads", auto_optimize := true }

/-- A fully configured, active Resend record. -/
def sampleResend : ResendConfiguration :=
  { is_active := true, api_key := "re_key", from_email := "noreply@example.com",
    from_name := "" }

/-! ## Theorems -/

/-- Claim C1: for every configuration kind, `save` persists the record at the
fixed key 1 and leaves the cache entry evicted whatever it held before, so a
`load` performed immediately after the save returns exactly the saved record;
in particular it never returns the pre-save field values when those differ
from the saved ones. -/
theorem save_then_load_coherent {α : Type} (st : SingletonState α)
    (suppliedPk : Nat) (r default : α) (now : Nat) :
    (saveRecord suppliedPk r st).cache = none ∧
    (saveRecord suppliedPk r st).store 1 = some r ∧
    (loadRecord default now (saveRecord suppliedPk r st)).1 = r ∧
    ∀ pre : α, pre ≠ r →
      (loadRecord default now (saveRecord suppliedPk r st)).1 ≠ pre := by
  have h3 : (loadRecord default now (saveRecord suppliedPk r st)).1 = r := by
    simp [loadRecord, saveRecord, cacheGet, upsert]
  exact ⟨rfl, by simp [saveRecord, upsert], h3,
    fun pre hpre => by rw [h3]; exact fun h => hpre h.symm⟩

/-- Witness for the hypotheses of the C1 theorem at a concrete state. -/
theorem save_then_load_coherent_witness :
    (3 : Nat) ≠ 5 ∧
    (loadRecord 0 0 (saveRecord 7 5 (emptyState Nat))).1 ≠ 3 :=
  ⟨by decide, (save_then_load_coherent (emptyState Nat) 7 5 0 0).2.2.2 3 (by decide)⟩

theorem runSaves_cons {α : Type} (p : Nat × α) (saves : List (Nat × α))
    (st : SingletonState α) :
    runSaves (p :: saves) st = runSaves saves (saveRecord p.1 p.2 st) := rfl

theorem runSaves_store_away {α : Type} (saves : List (Nat × α))
    (st : SingletonState α) (k : Nat) (hk : k ≠ 1) (h : st.store k = none) :
    (runSaves saves st).store k = none := by
  induction saves generalizing st with
  | nil => exact h
  | cons p rest ih => exact ih _ (by simpa [saveRecord, upsert, hk] using h)

theorem runSaves_store_one {α : Type} (saves : List (Nat × α))
    (st : SingletonState α) (h : ∃ r, st.store 1 = some r) :
    ∃ r, (runSaves saves st).store 1 = some r := by
  induction saves generalizing st with
  | nil => exact h
  | cons p rest ih => exact ih _ ⟨p.2, by simp [saveRecord, upsert]⟩

/-- Claim C2: for every configuration kind, after any non-empty sequence of
`save` calls carrying arbitrary caller-supplied primary keys, starting from
an empty store, exactly one stored row of that kind exists and it sits at the
fixed key 1. -/
theorem singleton_identity {α : Type} (saves : List (Nat × α)) (h : saves ≠ []) :
    (∃ r, (runSaves saves (emptyState α)).store 1 = some r) ∧
    ∀ k, k ≠ 1 → (runSaves saves (emptyState α)).store k = none := by
  match saves, h with
  | p :: rest, _ =>
    constructor
    · rw [runSaves_cons]
      exact runSaves_store_one rest _ ⟨p.2, by simp [saveRecord, upsert]⟩
    · intro k hk
      rw [runSaves_cons]
      exact runSaves_store_away rest _ k hk
        (by simp [saveRecord, upsert, hk, emptyState])

/-- Witness for the hypotheses of the C2 theorem: three saves with distinct
supplied keys leave exactly the row at key 1. -/
theorem singleton_identity_witness :
    (∃ r, (runSaves [(4, 10), (9, 20), (2, 30)] (emptyState Nat)).store 1 = some r) ∧
    ∀ k, k ≠ 1 → (runSaves [(4, 10), (9, 20), (2, 30)] (emptyState Nat)).store k = none :=
  singleton_identity [(4, 10), (9, 20), (2, 30)] (by decide)

/-- Claim C8: for every configuration kind, `load` returns the cached copy
while the entry is unexpired without touching the store; on a cache miss it
performs a read-or-create against the store at key 1 and caches the result
with expiry `now + 300`; and an entry present in the cache no longer counts
once its expiry has passed, so the next `load` re-reads the store. -/
theorem load_cache_ttl {α : Type} (default : α) :
    (∀ (st : SingletonState α) (v : α) (expiry now : Nat),
      st.cache = some (v, expiry) → now < expiry →
      loadRecord default now st = (v, st, false)) ∧
    (∀ (st : SingletonState α) (now : Nat), cacheGet st.cache now = none →
      (loadRecord default now st).2.2 = true ∧
      (loadRecord default now st).2.1.cache =
        some ((loadRecord default now st).1, now + 300) ∧
      (∀ r, st.store 1 = some r →
        (loadRecord default now st).1 = r ∧
        (loadRecord default now st).2.1.store = st.store) ∧
      (st.store 1 = none →
        (loadRecord default now st).1 = default ∧
        (loadRecord default now st).2.1.store 1 = some default)) ∧
    (∀ (st : SingletonState α) (v : α) (expiry now : Nat),
      st.cache = some (v, expiry) → expiry ≤ now →
      (loadRecord default now st).2.2 = true) := by
  refine ⟨?_, ?_, ?_⟩
  · intro st v expiry now hc hlt
    simp [loadRecord, cacheGet, hc, hlt]
  · intro st now hmiss
    cases hs : st.store 1 with
    | some r => simp [loadRecord, hmiss, hs, upsert]
    | none => simp [loadRecord, hmiss, hs, upsert]
  · intro st v expiry now hc hle
    have hmiss : cacheGet st.cache now = none := by
      simp [cacheGet, hc, Nat.not_lt.mpr hle]
    cases hs : st.store 1 with
    | some r => simp [loadRecord, hmiss, hs]
    | none => simp [loadRecord, hmiss, hs]

/-- Witness for the hypotheses of the C8 theorem: a hit strictly before the
expiry, a miss on the empty cache, and an expired entry at its expiry time. -/
theorem load_cache_ttl_witness :
    loadRecord 0 40 { emptyState Nat with cache := some (6, 300) } =
      (6, { emptyState Nat with cache := some (6, 300) }, false) ∧
    (loadRecord 0 300 { emptyState Nat with cache := some (6, 300) }).2.2 = true := by
  constructor
  · exact (load_cache_ttl 0).1 _ 6 300 40 rfl (by decide)
  · exact (load_cache_ttl 0).2.2 _ 6 300 300 rfl (by decide)

/-- Claim C9: `send_test_email` on a configuration whose `api_key` is empty
returns `(False, "API key is not configured.")` and issues no HTTP call,
whatever the network would have answered. -/
theorem test_email_missing_api_key (config : ResendConfiguration)
    (to_email : String) (outcome : HttpOutcome) (h : config.api_key = "") :
    send_test_email config to_email outcome =
      ((false, "API key is not configured."), []) := by
  simp [send_test_email, h]

/-- Witness for the hypothesis of the C9 theorem at a concrete
configuration. -/
theorem test_email_missing_api_key_witness :
    send_test_email
      { is_active := true, api_key := "", from_email := "a@b.c", from_name := "N" }
      "user@example.com" (.response 200 none "") =
      ((false, "API key is not configured."), []) :=
  test_email_missing_api_key _ _ _ rfl

/-- Claim C3: each gateway accessor returns the loaded record exactly when
the record is active and its kind-specific required fields are non-empty
(email: `api_key`; media: `cloud_name`, `api_key`, `api_secret`; editor:
`api_key`; payments: `secret_key`), and returns `none` in every other case;
no error outcome exists. -/
theorem gateway_gating :
    (∀ c : ResendConfiguration,
      (get_resend_config c = some c ↔ c.is_active = true ∧ c.api_key ≠ "") ∧
      (get_resend_config c = none ↔ c.is_active = false ∨ c.api_key = "")) ∧
    (∀ c : CloudinaryConfiguration,
      (get_cloudinary_config c = some c ↔
        c.is_active = true ∧ c.cloud_name ≠ "" ∧ c.api_key ≠ "" ∧ c.api_secret ≠ "") ∧
      (get_cloudinary_config c = none ↔
        c.is_active = false ∨ c.cloud_name = "" ∨ c.api_key = "" ∨ c.api_secret = "")) ∧
    (∀ c : TinyMCEConfiguration,
      (get_tinymce_config c = some c ↔ c.is_active = true ∧ c.api_key ≠ "") ∧
      (get_tinymce_config c = none ↔ c.is_active = false ∨ c.api_key = "")) ∧
    (∀ c : StripeConfiguration,
      (get_stripe_config c = some c ↔ c.is_active = true ∧ c.secret_key ≠ "") ∧
      (get_stripe_config c = none ↔ c.is_active = false ∨ c.secret_key = "")) := by
  refine ⟨fun c => ?_, fun c => ?_, fun c => ?_, fun c => ?_⟩
  · by_cases ha : c.is_active = true
    · by_cases hk : c.api_key = "" <;> simp [get_resend_config, ha, hk]
    · simp [get_resend_config, Bool.eq_false_of_not_eq_true ha]
  · by_cases ha : c.is_active = true
    · by_cases h1 : c.cloud_name = "" <;> by_cases h2 : c.api_key = "" <;>
        by_cases h3 : c.api_secret = "" <;>
        simp [get_cloudinary_config, ha, h1, h2, h3]
    · simp [get_cloudinary_config, Bool.eq_false_of_not_eq_true ha]
  · by_cases ha : c.is_active = true
    · by_cases hk : c.api_key = "" <;> simp [get_tinymce_config, ha, hk]
    · simp [get_tinymce_config, Bool.eq_false_of_not_eq_true ha]
  · by_cases ha : c.is_active = true
    · by_cases hk : c.secret_key = "" <;> simp [get_stripe_config, ha, hk]
    · simp [get_stripe_config, Bool.eq_false_of_not_eq_true ha]

/-- Claim C4: for a new (not yet persisted) entity with a file attached, the
pre-save hook issues exactly the upload performed by `upload_to_cloudinary`
under the kind-specific folder `users/profile_pictures`; when that upload
returns a URL the remote URL field is set to it and the file reference is
cleared, and when it returns no URL both fields are left exactly as
submitted. -/
theorem new_entity_media_sync (loaded : CloudinaryConfiguration)
    (uploadResult : String → String → Option String)
    (destroyResult : String → Option String) (old_instance : Option User)
    (inst : User) (hpk : inst.pk = none) (hfile : inst.profile_picture ≠ "") :
    (upload_profile_picture_to_cloudinary loaded uploadResult destroyResult
        old_instance inst).2 =
      (upload_to_cloudinary loaded uploadResult inst.profile_picture
        (some "users/profile_pictures")).2 ∧
    (∀ f folder,
      CloudEvent.upload f folder ∈
        (upload_profile_picture_to_cloudinary loaded uploadResult destroyResult
          old_instance inst).2 →
      f = inst.profile_picture ∧ folder = "users/profile_pictures") ∧
    (∀ u,
      (upload_to_cloudinary loaded uploadResult inst.profile_picture
        (some "users/profile_pictures")).1 = some u →
      (upload_profile_picture_to_cloudinary loaded uploadResult destroyResult
          old_instance inst).1 =
        { inst with profile_picture_url := u, profile_picture := "" }) ∧
    ((upload_to_cloudinary loaded uploadResult inst.profile_picture
        (some "users/profile_pictures")).1 = none →
      (upload_profile_picture_to_cloudinary loaded uploadResult destroyResult
          old_instance inst).1 = inst) := by
  cases hg : get_cloudinary_config loaded with
  | none =>
    refine ⟨?_, ?_, ?_, ?_⟩ <;>
      simp [upload_profile_picture_to_cloudinary, upload_to_cloudinary, hpk,
        hfile, hg]
  | some config =>
    cases hup : uploadResult inst.profile_picture "users/profile_pictures" with
    | some u =>
      refine ⟨?_, ?_, ?_, ?_⟩ <;>
        simp [upload_profile_picture_to_cloudinary, upload_to_cloudinary, hpk,
          hfile, hg, hup]
    | none =>
      refine ⟨?_, ?_, ?_, ?_⟩ <;>
        simp [upload_profile_picture_to_cloudinary, upload_to_cloudinary, hpk,
          hfile, hg, hup]

/-- Witness for the hypotheses of the C4 theorem: a new user with a file,
successful upload. -/
theorem new_entity_media_sync_witness :
    (upload_profile_picture_to_cloudinary sampleCloudinary
        (fun _ _ => some "https://res.cloudinary.com/demo/image/upload/v9/users/profile_pictures/pic.jpg")
        (fun _ => some "ok") none
        { pk := none, profile_picture := "pic.jpg", profile_picture_url := "" }).1 =
      { pk := none, profile_picture := "",
        profile_picture_url :=
          "https://res.cloudinary.com/demo/image/upload/v9/users/profile_pictures/pic.jpg" } :=
  (new_entity_media_sync sampleCloudinary
      (fun _ _ => some "https://res.cloudinary.com/demo/image/upload/v9/users/profile_pictures/pic.jpg")
      (fun _ => some "ok") none
      { pk := none, profile_picture := "pic.jpg", profile_picture_url := "" }
      rfl (by decide)).2.2.1 _ (by decide)

/-- Claim C5: for an existing entity whose file reference changes to a new
non-empty value, the hook first issues the best-effort delete of the old
remote asset (exactly the calls of `delete_from_cloudinary` on the stored
remote URL, when that URL is non-empty) and only then the new upload; on
upload success the remote URL is replaced and the file reference cleared, on
upload failure the submitted fields are retained. -/
theorem changed_file_media_sync (loaded : CloudinaryConfiguration)
    (uploadResult : String → String → Option String)
    (destroyResult : String → Option String) (old inst : User) (n : Nat)
    (hpk : inst.pk = some n) (hfile : inst.profile_picture ≠ "")
    (hdiff : inst.profile_picture ≠ old.profile_picture)
    (hurl : old.profile_picture_url ≠ "") :
    (upload_profile_picture_to_cloudinary loaded uploadResult destroyResult
        (some old) inst).2 =
      (delete_from_cloudinary loaded destroyResult old.profile_picture_url).2 ++
      (upload_to_cloudinary loaded uploadResult inst.profile_picture
        (some "users/profile_pictures")).2 ∧
    (∀ u,
      (upload_to_cloudinary loaded uploadResult inst.profile_picture
        (some "users/profile_pictures")).1 = some u →
      (upload_profile_picture_to_cloudinary loaded uploadResult destroyResult
          (some old) inst).1 =
        { inst with profile_picture_url := u, profile_picture := "" }) ∧
    ((upload_to_cloudinary loaded uploadResult inst.profile_picture
        (some "users/profile_pictures")).1 = none →
      (upload_profile_picture_to_cloudinary loaded uploadResult destroyResult
          (some old) inst).1 = inst) := by
  cases hup : (upload_to_cloudinary loaded uploadResult inst.profile_picture
      (some "users/profile_pictures")).1 with
  | some u =>
    refine ⟨?_, ?_, ?_⟩ <;>
      simp [upload_profile_picture_to_cloudinary, hpk, hfile, hdiff, hurl, hup]
  | none =>
    refine ⟨?_, ?_, ?_⟩ <;>
      simp [upload_profile_picture_to_cloudinary, hpk, hfile, hdiff, hurl, hup]

/-- Witness for the hypotheses of the C5 theorem, realising the E2E-2
scenario: the old asset identifier `folder/abc` is submitted for delete
before the new upload. -/
theorem changed_file_media_sync_witness :
    (upload_profile_picture_to_cloudinary sampleCloudinary
        (fun _ _ => some "https://res.cloudinary.com/demo/image/upload/v9/users/profile_pictures/new.jpg")
        (fun _ => some "ok")
        (some { pk := some 3, profile_picture := "old.jpg",
                profile_picture_url :=
                  "https://res.cloudinary.com/demo/image/upload/v123/folder/abc.jpg" })
        { pk := some 3, profile_picture := "new.jpg",
          profile_picture_url :=
            "https://res.cloudinary.com/demo/image/upload/v123/folder/abc.jpg" }).2 =
      [CloudEvent.destroy "folder/abc",
       CloudEvent.upload "new.jpg" "users/profile_pictures"] := by
  have h := (changed_file_media_sync sampleCloudinary
      (fun _ _ => some "https://res.cloudinary.com/demo/image/upload/v9/users/profile_pictures/new.jpg")
      (fun _ => some "ok")
      { pk := some 3, profile_picture := "old.jpg",
        profile_picture_url :=
          "https://res.cloudinary.com/demo/image/upload/v123/folder/abc.jpg" }
      { pk := some 3, profile_picture := "new.jpg",
        profile_picture_url :=
          "https://res.cloudinary.com/demo/image/upload/v123/folder/abc.jpg" }
      3 rfl (by decide) (by decide) (by decide)).1
  rw [h]; decide

/-- Claim C10: for an existing entity, the hook takes no action when the new
file reference is empty (cleared) or unchanged: no external call is issued
and the instance fields, the remote URL included, are returned exactly as
submitted. -/
theorem no_action_on_clear_or_unchanged (loaded : CloudinaryConfiguration)
    (uploadResult : String → String → Option String)
    (destroyResult : String → Option String) (old inst : User) (n : Nat)
    (hpk : inst.pk = some n) :
    (inst.profile_picture = "" →
      upload_profile_picture_to_cloudinary loaded uploadResult destroyResult
        (some old) inst = (inst, [])) ∧
    (inst.profile_picture = old.profile_picture →
      upload_profile_picture_to_cloudinary loaded uploadResult destroyResult
        (some old) inst = (inst, [])) := by
  constructor
  · intro h
    simp [upload_profile_picture_to_cloudinary, hpk, h]
  · intro h
    simp [upload_profile_picture_to_cloudinary, hpk, h]

/-- Witness for the hypotheses of the C10 theorem: a user whose file
reference was cleared keeps its remote URL and triggers no external call. -/
theorem no_action_on_clear_or_unchanged_witness :
    upload_profile_picture_to_cloudinary sampleCloudinary
      (fun _ _ => some "https://res.cloudinary.com/demo/image/upload/v9/users/profile_pictures/new.jpg")
      (fun _ => some "ok")
      (some { pk := some 3, profile_picture := "old.jpg",
              profile_picture_url :=
                "https://res.cloudinary.com/demo/image/upload/v123/folder/abc.jpg" })
      { pk := some 3, profile_picture := "",
        profile_picture_url :=
          "https://res.cloudinary.com/demo/image/upload/v123/folder/abc.jpg" } =
      ({ pk := some 3, profile_picture := "",
         profile_picture_url :=
           "https://res.cloudinary.com/demo/image/upload/v123/folder/abc.jpg" },
       []) :=
  (no_action_on_clear_or_unchanged sampleCloudinary
      (fun _ _ => some "https://res.cloudinary.com/demo/image/upload/v9/users/profile_pictures/new.jpg")
      (fun _ => some "ok")
      { pk := some 3, profile_picture := "old.jpg",
        profile_picture_url :=
          "https://res.cloudinary.com/demo/image/upload/v123/folder/abc.jpg" }
      { pk := some 3, profile_picture := "",
        profile_picture_url :=
          "https://res.cloudinary.com/demo/image/upload/v123/folder/abc.jpg" }
      3 rfl).1 rfl

/-- Claim C6: the remote delete derives the asset identifier by locating the
`upload` path segment, taking all segments after it, stripping a leading
version segment when one is present, joining the rest and stripping the file
extension; and on any URL that does not match the expected media-host
pattern, or whose identifier cannot be extracted, the delete is skipped
(result `false`, no destroy submitted) rather than raising an error. -/
theorem delete_url_parsing (loaded : CloudinaryConfiguration)
    (destroyResult : String → Option String) :
    (∀ (url : String) (i : Nat) (p : List Char) (rest : List (List Char)),
      containsSeq "cloudinary.com".data url.data = true →
      (splitChar '/' url.data).findIdx? (fun q => q == "upload".data) = some i →
      (splitChar '/' url.data).drop (i + 1) = p :: rest →
      extract_public_id url =
        some (String.mk (stripLastExtension (joinSep '/'
          (if "v".data.isPrefixOf p then rest else p :: rest))))) ∧
    (∀ url, extract_public_id url = none →
      delete_from_cloudinary loaded destroyResult url = (false, [])) ∧
    (∀ url, containsSeq "cloudinary.com".data url.data = false →
      delete_from_cloudinary loaded destroyResult url = (false, [])) := by
  refine ⟨?_, ?_, ?_⟩
  · intro url i p rest hc hidx hdrop
    have hlen : 2 ≤ (splitChar '/' url.data).length := by
      have h1 : ((splitChar '/' url.data).drop (i + 1)).length =
          (splitChar '/' url.data).length - (i + 1) := List.length_drop _ _
      rw [hdrop] at h1
      simp at h1
      omega
    simp [extract_public_id, hc, hlen, hidx, hdrop]
  · intro url h
    cases hg : get_cloudinary_config loaded with
    | none => simp [delete_from_cloudinary, hg]
    | some config => simp [delete_from_cloudinary, hg, h]
  · intro url h
    have hnone : extract_public_id url = none := by
      simp [extract_public_id, h]
    cases hg : get_cloudinary_config loaded with
    | none => simp [delete_from_cloudinary, hg]
    | some config => simp [delete_from_cloudinary, hg, hnone]

/-- Witness for the hypotheses of the C6 theorem: the E2E-2 URL yields the
identifier `folder/abc`, and a URL off the media-host pattern is skipped. -/
theorem delete_url_parsing_witness :
    extract_public_id
        "https://res.cloudinary.com/demo/image/upload/v123/folder/abc.jpg" =
      some "folder/abc" ∧
    delete_from_cloudinary sampleCloudinary (fun _ => some "ok")
        "https://example.com/media/upload/v1/folder/abc.jpg" = (false, []) := by
  constructor
  · have h := (delete_url_parsing sampleCloudinary (fun _ => some "ok")).1
      "https://res.cloudinary.com/demo/image/upload/v123/folder/abc.jpg" 5
      "v123".data ["folder".data, "abc.jpg".data] (by decide) (by decide) (by decide)
    rw [h]; decide
  · exact (delete_url_parsing sampleCloudinary (fun _ => some "ok")).2.2
      "https://example.com/media/upload/v1/folder/abc.jpg" (by decide)

/-- Claim C7 counterexample: `send_test_email` (and likewise `send_email`)
treats every status other than exactly 200 as provider-rejected, not every
non-2xx status as the claim states.  At the concrete outcome of a 201
response with structured error body, a 2xx response, the result is a failure
pair carrying the body message, so a 2xx outcome falls into the
provider-rejected classification, contradicting the claimed partition in
which only non-2xx responses are provider-rejected and a 2xx response is a
success. -/
theorem email_classification_counterexample :
    (send_test_email sampleResend "user@example.com"
        (.response 201 (some "duplicate request") "duplicate request")).1 =
      (false, "Failed to send email: duplicate request") ∧
    200 ≤ 201 ∧ 201 < 300 := by
  refine ⟨by decide, by decide, by decide⟩

/-- Claim C7 as amended: with a validated active configuration, the single
HTTP call's outcome is classified into exactly one of success (status 200),
provider-rejected (status other than 200, with the structured error body's
message), timeout, and transport failure, each returned as a uniform
(success flag, message) pair; no exception escapes and exactly one call is
issued (no retry).  `send_email`, which has no dedicated timeout handler,
reports a timeout through the generic transport-failure message. -/
theorem email_classification (config : ResendConfiguration)
    (to_email subject : String) (outcome : HttpOutcome)
    (ha : config.is_active = true) (hk : config.api_key ≠ "")
    (hf : config.from_email ≠ "") :
    (send_test_email config to_email outcome).2.length = 1 ∧
    (∀ m t, outcome = .response 200 m t →
      (send_test_email config to_email outcome).1 =
        (true, "Test email sent successfully to " ++ to_email)) ∧
    (∀ s m t, outcome = .response s m t → s ≠ 200 →
      (send_test_email config to_email outcome).1 =
        (false, "Failed to send email: " ++ m.getD t)) ∧
    (∀ e, outcome = .timeout e →
      (send_test_email config to_email outcome).1 =
        (false, "Request timed out. Please try again.")) ∧
    (∀ e, outcome = .requestError e →
      (send_test_email config to_email outcome).1 =
        (false, "Failed to send email: " ++ e)) ∧
    (send_email config to_email subject outcome).2.length = 1 ∧
    (∀ m t, outcome = .response 200 m t →
      (send_email config to_email subject outcome).1 =
        (true, "Email sent successfully.")) ∧
    (∀ s m t, outcome = .response s m t → s ≠ 200 →
      (send_email config to_email subject outcome).1 =
        (false, "Failed to send email: " ++ m.getD t)) ∧
    (∀ e, outcome = .timeout e →
      (send_email config to_email subject outcome).1 =
        (false, "Failed to send email: " ++ e)) ∧
    (∀ e, outcome = .requestError e →
      (send_email config to_email subject outcome).1 =
        (false, "Failed to send email: " ++ e)) := by
  have hg : get_resend_config config = some config := by
    simp [get_resend_config, ha, hk]
  refine ⟨?_, ?_, ?_, ?_, ?_, ?_, ?_, ?_, ?_, ?_⟩
  · cases outcome <;> simp [send_test_email, hk, hf] <;> split <;> simp
  · intro m t h
    subst h
    simp [send_test_email, hk, hf]
  · intro s m t h hs
    subst h
    simp [send_test_email, hk, hf, hs]
  · intro e h
    subst h
    simp [send_test_email, hk, hf]
  · intro e h
    subst h
    simp [send_test_email, hk, hf]
  · cases outcome <;> simp [send_email, hg] <;> split <;> simp
  · intro m t h
    subst h
    simp [send_email, hg]
  · intro s m t h hs
    subst h
    simp [send_email, hg, hs]
  · intro e h
    subst h
    simp [send_email, hg]
  · intro e h
    subst h
    simp [send_email, hg]

/-- Witness for the hypotheses of the amended C7 theorem at a validated
active configuration and a 200 response. -/
theorem email_classification_witness :
    (send_test_email sampleResend "user@example.com" (.response 200 none "")).1 =
      (true, "Test email sent successfully to user@example.com") ∧
    (send_email sampleResend "user@example.com" "Hi" (.response 200 none "")).2.length = 1 :=
  ⟨(email_classification sampleResend "user@example.com" "Hi"
      (.response 200 none "") rfl (by decide) (by decide)).2.1 none "" rfl,
   (email_classification sampleResend "user@example.com" "Hi"
      (.response 200 none "") rfl (by decide) (by decide)).2.2.2.2.2.1⟩

end TurboAdvanced
